import Mathlib

/-!
# Verification of the lumibot point-in-time cache core

Shallow embedding of the `Data` entity (`src/lumibot/entities/data.py`) and of
the cache sufficiency / refresh orchestration of `ThetaDataBacktesting`
(`src/lumibot/backtesting/thetadata_backtesting.py`).

Modelling conventions:
* Timestamps are `Int` values counting minutes (naive local time).
  `tz_localize` attaches a timezone without changing the local clock reading,
  so it is value-preserving on these instants; the constructed series records
  timezone-awareness in a `tzAware` flag.
* Numeric bar fields are `Rat` values; a dataframe row is its timestamp paired
  with the list of field values, so slicing rows slices every dataline (field
  column) identically, exactly as `get_bars` slices each `Dataline` with the
  same bounds.
* Raised Python exceptions are modelled with `Option`/`Except`/
  dedicated outcome constructors, as noted on each definition.
-/

namespace Lumibot

/-- Bar resolutions (timesteps) known to the cache layer. -/
inductive Timestep
  | minute
  | hour
  | day
deriving DecidableEq, Repr

/-- Duration of one bar at a given resolution, in minutes. -/
def timestepMinutes : Timestep → Int
  | .minute => 1
  | .hour => 60
  | .day => 1440

/-- Coarseness rank of a resolution: minute is finest, day is coarsest. -/
def coarseness : Timestep → Nat
  | .minute => 0
  | .hour => 1
  | .day => 2

/-- `START_BUFFER = timedelta(days=5)`, in minutes. -/
def START_BUFFER : Int := 5 * 1440

/-- One row of a tabular OHLCV-like input: its timestamp paired with the
numeric field values of the row. -/
abbrev Row := Int × List Rat

/-- A raw tabular input (pandas DataFrame): column names plus time-indexed
rows. -/
structure PandasDF where
  colNames : List String
  rows : List Row
deriving DecidableEq, Repr

/-- `str.lower()` on ASCII column names (character-wise lowering). -/
def lowerString (s : String) : String := ⟨s.data.map Char.toLower⟩

/-- `Data.columns`: lower-case the recognized OHLCV column names, leave the
others unchanged. -/
def columnsLower (names : List String) : List String :=
  names.map fun col =>
    if lowerString col ∈ ["open", "high", "low", "close", "volume"] then lowerString col
    else col

/-- The point-in-time series (`Data` entity): normalized column names, the
trimmed time-indexed rows, and a flag recording that `set_date_format`
tz-localized the index. -/
structure Data where
  colNames : List String
  rows : List Row
  tzAware : Bool
deriving DecidableEq, Repr

/-- The shared time index of a series (`self.df.index`). -/
def Data.index (d : Data) : List Int := d.rows.map Prod.fst

/-- Time-of-day (minutes after midnight) of a timestamp, as used by
`between_time`. -/
def timeOfDay (t : Int) : Int := t % 1440

/-- Row predicate of `df.between_time(t1, t2)`: inclusive on both ends,
wrapping across midnight when `t1 > t2`. -/
def betweenTime (t1 t2 t : Int) : Bool :=
  if t1 ≤ t2 then decide (t1 ≤ timeOfDay t) && decide (timeOfDay t ≤ t2)
  else decide (t1 ≤ timeOfDay t) || decide (timeOfDay t ≤ t2)

/-- `Data.trim_data`: `df.loc[start:end, :]` — label slicing on the sorted
time index, i.e. keep rows with `start ≤ t ≤ end` — followed by
`df.between_time(start.time(), end.time())`. -/
def trim_data (rows : List Row) (s e : Int) : List Row :=
  (rows.filter fun r => decide (s ≤ r.1) && decide (r.1 ≤ e)).filter
    fun r => betweenTime (timeOfDay s) (timeOfDay e) r.1

/-- `Data.set_dates` on well-typed bounds: default a missing bound to the
first/last index entry (`self.df.index[0]` / `self.df.index[-1]`; indexing an
empty frame raises, modelled as `none`). `to_datetime_aware` is
value-preserving on our instants. -/
def set_dates (index : List Int) (date_start date_end : Option Int) :
    Option (Int × Int) :=
  match date_start.orElse (fun _ => index.head?),
        date_end.orElse (fun _ => index.getLast?) with
  | some s, some e => some (s, e)
  | _, _ => none

/-- `Data.__init__`: normalize column names, tz-localize the index
(`set_date_format`; value-preserving, records awareness), resolve the date
bounds, trim.  Returns `none` when a default bound must be read off an empty
frame (pandas raises there). -/
def mkData (df : PandasDF) (date_start date_end : Option Int) : Option Data :=
  match set_dates (df.rows.map Prod.fst) date_start date_end with
  | none => none
  | some (s, e) => some ⟨columnsLower df.colNames, trim_data df.rows s e, true⟩

/-- `Data.get_iter_count`: position of a timestamp in the index
(`self.iter_index[dt]`); `none` models the `KeyError` on a missing
timestamp. -/
def findTs (index : List Int) (ts : Int) : Option Nat :=
  match index with
  | [] => none
  | t :: rest => if t = ts then some 0 else (findTs rest ts).map (· + 1)

/-- Normalize a (step-1) Python slice bound against a list of length `n`:
a negative bound counts from the end of the list; out-of-range bounds are
clamped by `take`/`drop`/`toNat` themselves. -/
def pyIdx (n : Nat) (i : Int) : Nat :=
  if i < 0 then ((n : Int) + i).toNat else i.toNat

/-- Python list slicing `l[start:stop]` (step 1). -/
def pySlice (l : List α) (start stop : Int) : List α :=
  (l.take (pyIdx l.length stop)).drop (pyIdx l.length start)

/-- `Data.get_bars(dt, length, timestep, timeshift)`: compute
`end_row = iter_index[dt] + 1 - timeshift`, `start_row = end_row - length`
clamped at 0, and slice `[start_row:end_row]` out of every dataline (our rows
carry all field columns, so slicing rows slices each dataline identically).
`none` models the `KeyError` of the index lookup. -/
def Data.get_bars (d : Data) (dt : Int) (length : Nat) (timeshift : Int := 0) :
    Option (List Row) :=
  match findTs d.index dt with
  | none => none
  | some i =>
    let end_row : Int := (i : Int) + 1 - timeshift
    let start_row0 : Int := end_row - (length : Int)
    let start_row : Int := if start_row0 < 0 then 0 else start_row0
    some (pySlice d.rows start_row end_row)

/-! ## Helper lemmas about the series embedding -/

theorem findTs_lt_length {l : List Int} {ts : Int} {i : Nat}
    (h : findTs l ts = some i) : i < l.length := by
  induction l generalizing i with
  | nil => simp [findTs] at h
  | cons t rest ih =>
    by_cases ht : t = ts
    · simp [findTs, ht] at h
      subst h
      simp
    · simp only [findTs, if_neg ht] at h
      cases hr : findTs rest ts with
      | none => rw [hr] at h; simp at h
      | some j =>
        rw [hr] at h
        simp at h
        have := ih hr
        simp [List.length_cons]
        omega

theorem findTs_getElem {l : List Int} {ts : Int} {i : Nat}
    (h : findTs l ts = some i) (hi : i < l.length) : l[i] = ts := by
  induction l generalizing i with
  | nil => simp [findTs] at h
  | cons t rest ih =>
    by_cases ht : t = ts
    · simp [findTs, ht] at h
      subst h
      simpa using ht
    · simp only [findTs, if_neg ht] at h
      cases hr : findTs rest ts with
      | none => rw [hr] at h; simp at h
      | some j =>
        rw [hr] at h
        simp at h
        subst h
        have hj := findTs_lt_length hr
        simpa using ih hr hj

theorem pyIdx_nonneg {n : Nat} {i : Int} (hi : 0 ≤ i) : pyIdx n i = i.toNat := by
  simp [pyIdx, not_lt.mpr hi]

theorem pySlice_nonneg (l : List α) {a b : Int} (ha : 0 ≤ a) (hb : 0 ≤ b) :
    pySlice l a b = (l.take b.toNat).drop a.toNat := by
  simp [pySlice, pyIdx_nonneg ha, pyIdx_nonneg hb]

/-- Every element of `l.take (i+1)` is `≤ l[i]` when `l` is strictly
sorted. -/
theorem mem_take_le_of_pairwise {l : List Int} (hp : l.Pairwise (· < ·))
    {i : Nat} (hi : i < l.length) {x : Int} (hx : x ∈ l.take (i + 1)) :
    x ≤ l[i] := by
  rw [List.pairwise_iff_getElem] at hp
  rw [List.mem_take_iff_getElem] at hx
  obtain ⟨j, hj, rfl⟩ := hx
  rcases Nat.lt_or_ge j i with hlt | hge
  · exact le_of_lt (hp j i (by omega) (by omega) hlt)
  · have : j = i := by omega
    subst this
    exact le_refl _

/-- In a strictly sorted list, the elements `≤ l[i]` are exactly the first
`i + 1` of them. -/
theorem filter_le_eq_take {l : List Int} (hp : l.Pairwise (· < ·)) :
    ∀ (i : Nat) (hi : i < l.length),
      l.filter (fun x => decide (x ≤ l[i])) = l.take (i + 1) := by
  induction l with
  | nil => intro i hi; simp at hi
  | cons c xs ih =>
    intro i hi
    obtain ⟨hhead, htail⟩ := List.pairwise_cons.mp hp
    cases i with
    | zero =>
      simp only [List.getElem_cons_zero, List.take_succ_cons, List.take_zero,
        List.filter_cons, decide_eq_true_eq, le_refl, if_pos]
      rw [List.filter_eq_nil_iff.mpr]
      intro a ha
      simp only [decide_eq_true_eq]
      exact not_le.mpr (hhead a ha)
    | succ i =>
      have hi' : i < xs.length := by simpa [Nat.succ_lt_succ_iff] using hi
      simp only [List.getElem_cons_succ, List.take_succ_cons, List.filter_cons,
        decide_eq_true_eq]
      rw [if_pos (le_of_lt (hhead _ (List.getElem_mem hi')))]
      rw [ih htail i hi']

/-- Evaluation of `get_bars` once the index lookup succeeds. -/
theorem get_bars_eq {d : Data} {ts : Int} {i : Nat}
    (hfind : findTs d.index ts = some i) (length : Nat) (timeshift : Int) :
    d.get_bars ts length timeshift =
      some (pySlice d.rows
        (if (i : Int) + 1 - timeshift - (length : Int) < 0 then 0
         else (i : Int) + 1 - timeshift - (length : Int))
        ((i : Int) + 1 - timeshift)) := by
  unfold Data.get_bars
  rw [hfind]

/-- C1: with the default `timeshift = 0`, `window(ts, length)` returns only
rows whose timestamp is at most `ts`, returns at most `length` rows, and
returns fewer than `length` rows only when the series holds fewer than
`length` rows at or before `ts`. -/
theorem getBars_no_lookahead (d : Data) (ts : Int) (i : Nat) (length : Nat)
    (hsorted : d.index.Pairwise (· < ·))
    (hfind : findTs d.index ts = some i)
    (hlen : 1 ≤ length) :
    ∃ l, d.get_bars ts length 0 = some l ∧
      (∀ r ∈ l, r.1 ≤ ts) ∧
      l.length ≤ length ∧
      (l.length < length →
        (d.index.filter fun t => decide (t ≤ ts)).length < length) := by
  have hilen : i < d.index.length := findTs_lt_length hfind
  have hget : d.index[i] = ts := findTs_getElem hfind hilen
  have hn : d.index.length = d.rows.length := by simp [Data.index]
  have heval := get_bars_eq hfind length 0
  have htn : ((i : Int) + 1 - 0).toNat = i + 1 := by omega
  have hmemtake : ∀ r ∈ d.rows.take (i + 1), r.1 ≤ ts := by
    intro r hr
    have hmem : r.1 ∈ d.index.take (i + 1) := by
      show r.1 ∈ (d.rows.map Prod.fst).take (i + 1)
      rw [← List.map_take]
      exact List.mem_map_of_mem _ hr
    have := mem_take_le_of_pairwise hsorted hilen hmem
    rwa [hget] at this
  have hfilter : (d.index.filter fun t => decide (t ≤ ts)).length = i + 1 := by
    have hf := filter_le_eq_take hsorted i hilen
    rw [hget] at hf
    rw [hf, List.length_take]
    omega
  by_cases hc : (i : Int) + 1 - 0 - (length : Int) < 0
  · rw [if_pos hc] at heval
    rw [pySlice_nonneg d.rows le_rfl (by omega)] at heval
    rw [htn] at heval
    simp only [Int.toNat_zero, List.drop_zero] at heval
    refine ⟨_, heval, hmemtake, ?_, ?_⟩
    · rw [List.length_take]
      omega
    · intro _
      rw [hfilter]
      omega
  · rw [if_neg hc] at heval
    rw [pySlice_nonneg d.rows (by omega) (by omega)] at heval
    rw [htn] at heval
    refine ⟨_, heval, ?_, ?_, ?_⟩
    · intro r hr
      exact hmemtake r (List.mem_of_mem_drop hr)
    · rw [List.length_drop, List.length_take]
      omega
    · rw [List.length_drop, List.length_take]
      intro hlt
      omega

/-- C1 witness: the theorem instantiated on a concrete five-row series. -/
def exData : Data :=
  ⟨["close"], [(0, [1]), (10, [2]), (20, [3]), (30, [4]), (40, [5])], true⟩

theorem getBars_no_lookahead_witness :
    (exData.index.Pairwise (· < ·) ∧ findTs exData.index 20 = some 2 ∧ 1 ≤ 5) ∧
    (∃ l, exData.get_bars 20 5 0 = some l ∧
      (∀ r ∈ l, r.1 ≤ 20) ∧ l.length ≤ 5 ∧
      (l.length < 5 → (exData.index.filter fun t => decide (t ≤ 20)).length < 5)) :=
  ⟨⟨by decide, by decide, by decide⟩,
    getBars_no_lookahead exData 20 2 5 (by decide) (by decide) (by decide)⟩

/-- C2 (amended): when `end_row = index_of(ts) + 1 - timeshift` is
non-negative (`timeshift ≤ index_of(ts) + 1`), `get_bars` returns exactly the
rectangular slice of all fields over `[start_row, end_row)` with
`start_row = max 0 (end_row - length)`, and when `start_row` clamps to 0 the
returned window is shorter than `length` with no error raised.  (Without the
bound on `timeshift` the slice endpoint goes negative and Python slicing
counts from the end of the array — see the counterexample and C10.) -/
theorem getBars_rect_slice (d : Data) (ts : Int) (i : Nat) (length : Nat)
    (timeshift : Int)
    (hfind : findTs d.index ts = some i)
    (h0 : 0 ≤ timeshift) (hub : timeshift ≤ (i : Int) + 1) (hlen : 1 ≤ length) :
    d.get_bars ts length timeshift =
      some ((d.rows.take ((i : Int) + 1 - timeshift).toNat).drop
        ((max 0 ((i : Int) + 1 - timeshift - (length : Int))).toNat)) ∧
    ((i : Int) + 1 - timeshift - (length : Int) < 0 →
      ∀ l, d.get_bars ts length timeshift = some l → l.length < length) := by
  have hilen : i < d.index.length := findTs_lt_length hfind
  have hn : d.index.length = d.rows.length := by simp [Data.index]
  have heval := get_bars_eq hfind length timeshift
  have hmax : (if (i : Int) + 1 - timeshift - (length : Int) < 0 then 0
      else (i : Int) + 1 - timeshift - (length : Int)) =
      max 0 ((i : Int) + 1 - timeshift - (length : Int)) := by
    split <;> omega
  rw [hmax, pySlice_nonneg d.rows (le_max_left _ _) (by omega)] at heval
  refine ⟨heval, ?_⟩
  intro hclamp l hl
  rw [heval] at hl
  have hl' := Option.some.injEq _ _ ▸ hl
  have hmax0 : max 0 ((i : Int) + 1 - timeshift - (length : Int)) = 0 := by omega
  rw [hmax0] at hl'
  simp only [Int.toNat_zero, List.drop_zero] at hl'
  subst hl'
  rw [List.length_take]
  omega

/-- C2 counterexample: at the first row (`index_of(ts) = 0`) with
`length = 1` and `timeshift = 2`, the claim computes `end_row = -1`,
`start_row = max 0 (-2) = 0` (clamped), so it asserts the returned window is
shorter than `length = 1`; the code instead evaluates the Python slice
`dataline[0:-1]`, returning the first 4 of the 5 rows. -/
theorem getBars_rect_slice_cex :
    ¬ (∀ l, exData.get_bars 0 1 2 = some l → l.length < 1) := fun h =>
  absurd (h (exData.rows.take 4) (by decide)) (by decide)

theorem getBars_rect_slice_witness :
    (findTs exData.index 20 = some 2 ∧ (0 : Int) ≤ 1 ∧ (1 : Int) ≤ (2 : Nat) + 1 ∧ 1 ≤ 5) ∧
    (exData.get_bars 20 5 1 =
      some ((exData.rows.take ((2 : Int) + 1 - 1).toNat).drop
        ((max 0 ((2 : Int) + 1 - 1 - (5 : Int))).toNat)) ∧
    ((2 : Int) + 1 - 1 - (5 : Int) < 0 →
      ∀ l, exData.get_bars 20 5 1 = some l → l.length < 5)) :=
  ⟨⟨by decide, by decide, by decide, by decide⟩,
    getBars_rect_slice exData 20 2 5 1 (by decide) (by decide) (by decide) (by decide)⟩

/-- C10: when `i + 1 < timeshift < n` (with `i = index_of(ts)` and `n` the row
count), the computed `end_row = i + 1 - timeshift` is negative and is used
directly as a Python slice endpoint, so the slice counts from the end of the
array: `get_bars` returns the non-empty prefix of `n + end_row` rows, which
includes rows with timestamps strictly greater than `ts`, instead of an empty
window. -/
theorem getBars_negative_endrow (d : Data) (ts : Int) (i : Nat) (length : Nat)
    (timeshift : Int)
    (hsorted : d.index.Pairwise (· < ·))
    (hfind : findTs d.index ts = some i)
    (hlen : 1 ≤ length)
    (hlow : (i : Int) + 1 < timeshift)
    (hhigh : timeshift < (d.rows.length : Int)) :
    ∃ l, d.get_bars ts length timeshift = some l ∧
      l = d.rows.take (((d.rows.length : Int) + ((i : Int) + 1 - timeshift)).toNat) ∧
      l ≠ [] ∧ (∃ r ∈ l, ts < r.1) := by
  have hilen : i < d.index.length := findTs_lt_length hfind
  have hget : d.index[i] = ts := findTs_getElem hfind hilen
  have hn : d.index.length = d.rows.length := by simp [Data.index]
  have heval := get_bars_eq hfind length timeshift
  rw [if_pos (by omega)] at heval
  have hs : pySlice d.rows 0 ((i : Int) + 1 - timeshift) =
      d.rows.take (((d.rows.length : Int) + ((i : Int) + 1 - timeshift)).toNat) := by
    unfold pySlice
    rw [pyIdx_nonneg le_rfl]
    simp only [Int.toNat_zero, List.drop_zero]
    unfold pyIdx
    rw [if_pos (by omega)]
  rw [hs] at heval
  set m : Nat := (((d.rows.length : Int) + ((i : Int) + 1 - timeshift))).toNat with hm
  have hm2 : i + 1 < m := by omega
  have hmn : 0 < d.rows.length := by omega
  refine ⟨_, heval, rfl, ?_, ?_⟩
  · have : (d.rows.take m).length = min m d.rows.length := List.length_take ..
    intro hnil
    rw [hnil] at this
    simp at this
    omega
  · have hi1 : i + 1 < d.rows.length := by omega
    refine ⟨d.rows[i + 1], ?_, ?_⟩
    · exact List.mem_take_iff_getElem.mpr ⟨i + 1, by omega, rfl⟩
    · have hi2 : i + 1 < d.index.length := by omega
      have hp := List.pairwise_iff_getElem.mp hsorted i (i + 1)
        (by omega) (by omega) (by omega)
      rw [hget] at hp
      have hidx : d.index[i + 1] = (d.rows[i + 1]).1 := by
        simp [Data.index]
      rwa [hidx] at hp

theorem getBars_negative_endrow_witness :
    (exData.index.Pairwise (· < ·) ∧ findTs exData.index 0 = some 0 ∧ 1 ≤ 1 ∧
      ((0 : Nat) : Int) + 1 < 2 ∧ (2 : Int) < (exData.rows.length : Int)) ∧
    (∃ l, exData.get_bars 0 1 2 = some l ∧
      l = exData.rows.take ((((exData.rows.length : Nat) : Int) +
        (((0 : Nat) : Int) + 1 - 2)).toNat) ∧
      l ≠ [] ∧ (∃ r ∈ l, (0 : Int) < r.1)) :=
  ⟨⟨by decide, by decide, by decide, by decide, by decide⟩,
    getBars_negative_endrow exData 0 0 1 2 (by decide) (by decide) (by decide)
      (by decide) (by decide)⟩

/-! ## Cache layer: `ThetaDataBacktesting` sufficiency and refresh -/

/-- An asset-quote key: `(asset symbol, quote symbol)` (`search_asset`). -/
abbrev AssetKey := String × String

/-- The `asset` argument as received by `update_pandas_data`: either a single
asset or an already paired `(asset, quote)` tuple. -/
inductive AssetArg
  | single (sym : String)
  | pair (sym : String) (quoteSym : String)
deriving DecidableEq, Repr

/-- The normalization at the top of `update_pandas_data`: default the quote
asset to USD, split a tuple into `(asset_separated, quote_asset)`, otherwise
pair the single asset with the quote.  The result is both `search_asset` (as
a pair) and `(asset_separated, quote_asset)`. -/
def normalizeAsset (asset : AssetArg) (quote : Option String) : AssetKey :=
  let quote_asset := quote.getD "USD"
  match asset with
  | .pair a q => (a, q)
  | .single a => (a, quote_asset)

/-- A cache entry of `self.pandas_data`: the held series together with its
resolution (the `asset_data.timestep` attribute read by
`update_pandas_data`; spec section 3 records the resolution on the Cache
Entry). -/
structure CacheEntry where
  timestep : Timestep
  data : Data
deriving DecidableEq, Repr

/-- `asset_data.df.index[0]`, the earliest cached timestamp (defaulting to 0
on an empty frame, where pandas would raise; the theorems below only ever
read it off nonempty entries). -/
def CacheEntry.startTimestamp (e : CacheEntry) : Int := e.data.index.headD 0

/-- The `self.pandas_data` map (also `self._data_store`). -/
abbrev CacheMap := AssetKey → Option CacheEntry

/-- Modelled from the spec: `PandasData.get_start_datetime_and_ts_unit` is
not part of the shown source.  Per spec section 4.2 step 1 it computes the
required start time — the now-equivalent reference minus
`length × resolution duration` minus the fixed safety buffer, with a
caller-supplied explicit start time used as the lower bound instead of the
length-derived one — and returns it together with the parsed timestep
unit. -/
def get_start_datetime_and_ts_unit (reference : Int) (length : Nat)
    (timestep : Timestep) (start_dt : Option Int) (start_buffer : Int) :
    Int × Timestep :=
  match start_dt with
  | some s => (s, timestep)
  | none => (reference - (length : Int) * timestepMinutes timestep - start_buffer, timestep)

/-- Control flow through the cached-entry sufficiency checks of
`update_pandas_data`: `ret` models the early `return None` (cache
sufficient), `cont ts` models falling through with the current value of the
mutated `ts_unit` variable. -/
inductive Flow
  | ret
  | cont (ts_unit : Timestep)
deriving DecidableEq, Repr

/-- Lines 96-99: if the cached timestep equals the requested unit and the
cache starts early enough, return `None`. -/
def sameStepCheck (data_timestep : Timestep) (data_start start_datetime : Int)
    (ts_unit : Timestep) : Flow :=
  if data_timestep = ts_unit ∧ data_start - start_datetime < START_BUFFER then .ret
  else .cont ts_unit

/-- Lines 101-117: the `if ts_unit == "day"` block — against a finer cached
timestep, either the cache is sufficient or the fetch unit is downgraded to
the cached resolution. -/
def dayBlock (data_timestep : Timestep) (data_start start_datetime : Int) :
    Flow → Flow
  | .ret => .ret
  | .cont ts_unit =>
    if ts_unit = .day then
      if data_timestep = .minute then
        if data_start - start_datetime < START_BUFFER then .ret else .cont .minute
      else if data_timestep = .hour then
        if data_start - start_datetime < START_BUFFER then .ret else .cont .hour
      else .cont ts_unit
    else .cont ts_unit

/-- Lines 119-127: the `if ts_unit == "hour"` block. -/
def hourBlock (data_timestep : Timestep) (data_start start_datetime : Int) :
    Flow → Flow
  | .ret => .ret
  | .cont ts_unit =>
    if ts_unit = .hour then
      if data_timestep = .minute then
        if data_start - start_datetime < START_BUFFER then .ret else .cont .minute
      else .cont ts_unit
    else .cont ts_unit

/-- Lines 87-127: whether the cache can answer (`ret`) or a fetch is needed
and at which unit (`cont ts`); with no cache entry the fetch happens at the
requested unit. -/
def fetchDecision (pandas_data : CacheMap) (search_asset : AssetKey)
    (start_datetime : Int) (ts_unit : Timestep) : Flow :=
  match pandas_data search_asset with
  | none => .cont ts_unit
  | some asset_data =>
    hourBlock asset_data.timestep asset_data.startTimestamp start_datetime
      (dayBlock asset_data.timestep asset_data.startTimestamp start_datetime
        (sameStepCheck asset_data.timestep asset_data.startTimestamp start_datetime
          ts_unit))

/-- Result of `update_pandas_data`, instrumented with the return path taken
and the resolution of the provider fetch, if one was issued:
* `sufficient` — returned `None` without fetching;
* `fetchErr` — the provider raised; the propagated exception is
  `Exception("Error getting data from ThetaData")` chained from the cause;
* `emptyFetch` — the provider returned `None`; returns `None`;
* `updated` — a new series was built and keyed (`_set_pandas_data_keys`);
* `dataInitError` — `Data(...)` raised on a degenerate frame (uncaught, as
  it sits outside the `try`). -/
inductive UpdateOutcome
  | sufficient
  | fetchErr (ts_unit : Timestep) (err : String × String)
  | emptyFetch (ts_unit : Timestep)
  | updated (ts_unit : Timestep) (key : AssetKey) (entry : CacheEntry)
  | dataInitError (ts_unit : Timestep)
deriving DecidableEq, Repr

/-- The external provider (`thetadata_helper.get_price_data`), abstracted
over credentials: arguments are asset symbol, quote symbol, timespan, start,
end and the current simulated datetime.  `Except.error` models a raised
exception; `Option.none` a `None` frame. -/
abbrev Provider :=
  String → String → Timestep → Int → Int → Int → Except String (Option PandasDF)

/-- Lines 129-157: the download / construct / key tail of
`update_pandas_data` once a fetch at `ts_unit` was decided. -/
def doFetch (provider : Provider) (asset_separated quote_asset : String)
    (ts_unit : Timestep) (start_datetime datetime_end date_time_now : Int) :
    UpdateOutcome :=
  match provider asset_separated quote_asset ts_unit start_datetime datetime_end
      date_time_now with
  | .error e => .fetchErr ts_unit ("Error getting data from ThetaData", e)
  | .ok none => .emptyFetch ts_unit
  | .ok (some df) =>
    match mkData df none none with
    | none => .dataInitError ts_unit
    | some data => .updated ts_unit (asset_separated, quote_asset) ⟨ts_unit, data⟩

/-- `ThetaDataBacktesting.update_pandas_data`. -/
def update_pandas_data (provider : Provider) (pandas_data : CacheMap)
    (datetime_start datetime_end date_time_now : Int)
    (asset : AssetArg) (quote : Option String) (length : Nat)
    (timestep : Timestep) (start_dt : Option Int) : UpdateOutcome :=
  let search_asset := normalizeAsset asset quote
  let sdtts := get_start_datetime_and_ts_unit datetime_start length timestep
    start_dt START_BUFFER
  match fetchDecision pandas_data search_asset sdtts.1 sdtts.2 with
  | .ret => .sufficient
  | .cont ts_unit =>
    doFetch provider search_asset.1 search_asset.2 ts_unit sdtts.1 datetime_end
      date_time_now

/-- Modelled from the spec: `_set_pandas_data_keys` plus
`self.pandas_data.update(pandas_data_update)` — when the update is not
`None`, the dictionary binding for the asset-quote key is replaced by the new
entry (spec section 4.3: the Cache Entry is replaced wholesale). -/
def applyUpdate (m : CacheMap) : UpdateOutcome → CacheMap
  | .updated _ k e => fun k2 => if k2 = k then some e else m k2
  | _ => m

/-- Resolution at which an outcome issued a provider fetch (`none` when no
fetch was issued). -/
def fetchTimestep : UpdateOutcome → Option Timestep
  | .sufficient => none
  | .fetchErr ts _ => some ts
  | .emptyFetch ts => some ts
  | .updated ts _ _ => some ts
  | .dataInitError ts => some ts

/-- How many provider fetches an outcome caused (0 or 1). -/
def fetchCount (o : UpdateOutcome) : Nat :=
  if fetchTimestep o = none then 0 else 1

/-- Errors propagating out of `_pull_source_symbol_bars`: the wrapped
provider error, or the construction failure on a degenerate frame. -/
inductive PullError
  | providerError (err : String × String)
  | dataInitFailure
deriving DecidableEq, Repr

/-- Modelled from the spec: the superclass slicer
`PandasData._pull_source_symbol_bars` is not part of the shown source; per
spec section 4.4 it slices the lookback window out of the held series.  It is
abstracted as a deterministic, total function of the cache map and the
request. -/
abbrev SuperPull :=
  CacheMap → AssetArg → Option String → Nat → Timestep → Option (List Row)

/-- `ThetaDataBacktesting._pull_source_symbol_bars`: run the refresh, apply a
non-`None` update to `self.pandas_data`, then delegate to the superclass
slicer on the (possibly updated) map; exceptions propagate.  Returns the
resulting map and the response. -/
def pull_source_symbol_bars (provider : Provider) (superPull : SuperPull)
    (pandas_data : CacheMap) (datetime_start datetime_end date_time_now : Int)
    (asset : AssetArg) (quote : Option String) (length : Nat)
    (timestep : Timestep) :
    CacheMap × Except PullError (Option (List Row)) :=
  let o := update_pandas_data provider pandas_data datetime_start datetime_end
    date_time_now asset quote length timestep none
  match o with
  | .fetchErr _ e => (pandas_data, .error (.providerError e))
  | .dataInitError _ => (pandas_data, .error .dataInitFailure)
  | _ =>
    let m := applyUpdate pandas_data o
    (m, .ok (superPull m asset quote length timestep))

/-- Modelled from the spec: the superclass best-effort last-price lookup
(`PandasData.get_last_price`) is not part of the shown source; it is
abstracted as a deterministic, total function of the data store and the
request. -/
abbrev SuperLastPrice := CacheMap → AssetArg → Option String → Option Rat

/-- `ThetaDataBacktesting.get_last_price`: run the refresh path with
`length = 1` and `start_dt = dt` inside a `try`; on success update both
`self.pandas_data` and `self._data_store`; on any raised error, log and fall
through; always answer with the superclass best-effort lookup.  Returns
`(pandas_data, data_store, log, price)`. -/
def get_last_price (provider : Provider) (superLast : SuperLastPrice)
    (pandas_data data_store : CacheMap)
    (datetime_start datetime_end date_time_now : Int)
    (asset : AssetArg) (quote : Option String) (timestep : Timestep) :
    CacheMap × CacheMap × List String × Option Rat :=
  let o := update_pandas_data provider pandas_data datetime_start datetime_end
    date_time_now asset quote 1 timestep (some date_time_now)
  match o with
  | .fetchErr _ _ =>
    (pandas_data, data_store, ["Error get_last_price from ThetaData"],
      superLast data_store asset quote)
  | .dataInitError _ =>
    (pandas_data, data_store, ["Error get_last_price from ThetaData"],
      superLast data_store asset quote)
  | .updated ts k e =>
    (applyUpdate pandas_data (.updated ts k e),
      applyUpdate data_store (.updated ts k e), [],
      superLast (applyUpdate data_store (.updated ts k e)) asset quote)
  | _ => (pandas_data, data_store, [], superLast data_store asset quote)

/-! ## Helper lemmas about the sufficiency flow -/

/-- Closed form of the three sequential checks of `update_pandas_data` when a
cache entry is present. -/
theorem blocks_eq (dt : Timestep) (ds sd : Int) (ts0 : Timestep) :
    hourBlock dt ds sd (dayBlock dt ds sd (sameStepCheck dt ds sd ts0)) =
      if dt = ts0 ∧ ds - sd < START_BUFFER then .ret
      else if ts0 = .day ∧ dt = .minute then
        (if ds - sd < START_BUFFER then .ret else .cont .minute)
      else if ts0 = .day ∧ dt = .hour then
        (if ds - sd < START_BUFFER then .ret else .cont .hour)
      else if ts0 = .hour ∧ dt = .minute then
        (if ds - sd < START_BUFFER then .ret else .cont .minute)
      else .cont ts0 := by
  by_cases h : ds - sd < START_BUFFER <;>
    cases dt <;> cases ts0 <;>
    simp [sameStepCheck, dayBlock, hourBlock, h]

/-- The timestep pairs (requested unit, fetch unit) that `fetchDecision` can
produce when it decides to fetch. -/
def tsPair (ts0 ts : Timestep) : Prop :=
  ts = ts0 ∨ (ts0 = .day ∧ ts = .minute) ∨ (ts0 = .day ∧ ts = .hour) ∨
    (ts0 = .hour ∧ ts = .minute)

theorem fetchDecision_none {m : CacheMap} {k : AssetKey} {sd : Int}
    {ts0 : Timestep} (hm : m k = none) :
    fetchDecision m k sd ts0 = .cont ts0 := by
  unfold fetchDecision
  rw [hm]

theorem fetchDecision_some {m : CacheMap} {k : AssetKey} {sd : Int}
    {ts0 : Timestep} {e : CacheEntry} (hm : m k = some e) :
    fetchDecision m k sd ts0 =
      hourBlock e.timestep e.startTimestamp sd
        (dayBlock e.timestep e.startTimestamp sd
          (sameStepCheck e.timestep e.startTimestamp sd ts0)) := by
  unfold fetchDecision
  rw [hm]

theorem fetchDecision_cont_pairs {m : CacheMap} {k : AssetKey} {sd : Int}
    {ts0 ts : Timestep} (h : fetchDecision m k sd ts0 = .cont ts) :
    tsPair ts0 ts := by
  cases hm : m k with
  | none =>
    rw [fetchDecision_none hm] at h
    simp at h
    exact Or.inl h.symm
  | some e =>
    rw [fetchDecision_some hm, blocks_eq] at h
    by_cases hb : e.startTimestamp - sd < START_BUFFER <;>
      cases het : e.timestep <;> cases ts0 <;>
      simp [het, hb, tsPair] at h ⊢ <;> simp [h]

/-- A fetch decided against a held entry is never coarser than the cached
resolution. -/
theorem fetchDecision_cont_coarseness {m : CacheMap} {k : AssetKey} {sd : Int}
    {ts0 ts : Timestep} {e : CacheEntry} (hm : m k = some e)
    (h : fetchDecision m k sd ts0 = .cont ts) :
    coarseness ts ≤ coarseness e.timestep := by
  rw [fetchDecision_some hm, blocks_eq] at h
  by_cases hb : e.startTimestamp - sd < START_BUFFER <;>
    cases het : e.timestep <;> cases ts0 <;>
    simp [het, hb, coarseness] at h ⊢ <;> simp [← h, coarseness]

/-- Second-look form: against an entry whose resolution is the fetch unit a
previous decision produced for the same requested unit, the decision is
exactly the buffer check. -/
theorem fetchDecision_second {m : CacheMap} {k : AssetKey} {sd : Int}
    {ts0 : Timestep} {e : CacheEntry} (hm : m k = some e)
    (hpair : tsPair ts0 e.timestep) :
    fetchDecision m k sd ts0 =
      if e.startTimestamp - sd < START_BUFFER then .ret else .cont e.timestep := by
  rw [fetchDecision_some hm, blocks_eq]
  by_cases hb : e.startTimestamp - sd < START_BUFFER <;>
    rcases hpair with h | ⟨h1, h2⟩ | ⟨h1, h2⟩ | ⟨h1, h2⟩ <;>
    first
      | (cases ts0 <;> simp [h, hb])
      | (subst h1; simp [h2, hb])

theorem doFetch_ne_sufficient (provider : Provider) (a q : String)
    (ts : Timestep) (sd de now : Int) :
    doFetch provider a q ts sd de now ≠ .sufficient := by
  unfold doFetch
  cases hp : provider a q ts sd de now with
  | error e => simp
  | ok odf =>
    cases odf with
    | none => simp
    | some df =>
      cases hmk : mkData df none none with
      | none => simp [hmk]
      | some d => simp [hmk]

theorem fetchTimestep_doFetch (provider : Provider) (a q : String)
    (ts : Timestep) (sd de now : Int) :
    fetchTimestep (doFetch provider a q ts sd de now) = some ts := by
  unfold doFetch
  cases hp : provider a q ts sd de now with
  | error e => simp [fetchTimestep]
  | ok odf =>
    cases odf with
    | none => simp [fetchTimestep]
    | some df =>
      cases hmk : mkData df none none with
      | none => simp [hmk, fetchTimestep]
      | some d => simp [hmk, fetchTimestep]

/-- The parsed unit returned by the (spec-modelled) start computation is the
requested timestep. -/
theorem get_start_snd (reference : Int) (length : Nat) (timestep : Timestep)
    (start_dt : Option Int) (buffer : Int) :
    (get_start_datetime_and_ts_unit reference length timestep start_dt buffer).2 =
      timestep := by
  cases start_dt <;> rfl

/-- Unfolding of `update_pandas_data` through the (spec-modelled) start
computation. -/
theorem update_pandas_data_eq (provider : Provider) (pandas_data : CacheMap)
    (datetime_start datetime_end date_time_now : Int) (asset : AssetArg)
    (quote : Option String) (length : Nat) (timestep : Timestep)
    (start_dt : Option Int) :
    update_pandas_data provider pandas_data datetime_start datetime_end
        date_time_now asset quote length timestep start_dt =
      match fetchDecision pandas_data (normalizeAsset asset quote)
          (get_start_datetime_and_ts_unit datetime_start length timestep start_dt
            START_BUFFER).1 timestep with
      | .ret => .sufficient
      | .cont ts_unit =>
        doFetch provider (normalizeAsset asset quote).1
          (normalizeAsset asset quote).2 ts_unit
          (get_start_datetime_and_ts_unit datetime_start length timestep start_dt
            START_BUFFER).1 datetime_end date_time_now := by
  simp only [update_pandas_data, get_start_snd]

/-- C3: with a cache entry held at the same resolution as requested,
`update_pandas_data` reports the cache sufficient — returns `None` with no
fetch — if and only if `(cache earliest timestamp − required start time) <
START_BUFFER`, where the required start time is the (spec-modelled)
`get_start_datetime_and_ts_unit` result: reference minus length × resolution
duration minus the buffer, or the caller-supplied explicit start. -/
theorem sufficiency_same_resolution (provider : Provider)
    (pandas_data : CacheMap) (datetime_start datetime_end date_time_now : Int)
    (asset : AssetArg) (quote : Option String) (length : Nat)
    (timestep : Timestep) (start_dt : Option Int) (entry : CacheEntry)
    (hentry : pandas_data (normalizeAsset asset quote) = some entry)
    (hsame : entry.timestep = timestep) :
    (update_pandas_data provider pandas_data datetime_start datetime_end
        date_time_now asset quote length timestep start_dt = .sufficient) ↔
      entry.startTimestamp -
        (get_start_datetime_and_ts_unit datetime_start length timestep start_dt
          START_BUFFER).1 < START_BUFFER := by
  have hpair : tsPair timestep entry.timestep := Or.inl hsame
  rw [update_pandas_data_eq, fetchDecision_second hentry hpair]
  by_cases hb : entry.startTimestamp -
      (get_start_datetime_and_ts_unit datetime_start length timestep start_dt
        START_BUFFER).1 < START_BUFFER
  · simp [hb]
  · simp [hb, doFetch_ne_sufficient]

def exEntryMinute : CacheEntry := ⟨.minute, ⟨["close"], [(0, [1])], true⟩⟩

def exCache : CacheMap :=
  fun k => if k = ("SPY", "USD") then some exEntryMinute else none

def okProvider : Provider :=
  fun _ _ _ _ _ _ => .ok (some ⟨["close"], [(0, [1])]⟩)

theorem sufficiency_same_resolution_witness :
    (exCache (normalizeAsset (.single "SPY") none) = some exEntryMinute ∧
      exEntryMinute.timestep = .minute) ∧
    ((update_pandas_data okProvider exCache 0 100 50 (.single "SPY") none 1
        .minute none = .sufficient) ↔
      exEntryMinute.startTimestamp -
        (get_start_datetime_and_ts_unit 0 1 .minute none START_BUFFER).1 <
        START_BUFFER) :=
  ⟨⟨by decide, by decide⟩,
    sufficiency_same_resolution okProvider exCache 0 100 50 (.single "SPY") none
      1 .minute none exEntryMinute (by decide) (by decide)⟩

theorem coarseness_le_zero {ts : Timestep} (h : coarseness ts ≤ 0) :
    ts = .minute := by
  cases ts <;> simp [coarseness] at h ⊢

/-- C4: against a cache entry held at "minute" resolution, a "day" request
never fetches at "day" resolution — either the cache is reported sufficient
(no fetch) or the fetch is issued at "minute" resolution; and in general a
fetch is never issued at a resolution coarser than the cached one. -/
theorem no_coarser_fetch (provider : Provider) (pandas_data : CacheMap)
    (datetime_start datetime_end date_time_now : Int) (asset : AssetArg)
    (quote : Option String) (length : Nat) (timestep : Timestep)
    (start_dt : Option Int) (entry : CacheEntry)
    (hentry : pandas_data (normalizeAsset asset quote) = some entry) :
    (∀ t, fetchTimestep (update_pandas_data provider pandas_data datetime_start
        datetime_end date_time_now asset quote length timestep start_dt) =
        some t → coarseness t ≤ coarseness entry.timestep) ∧
    (entry.timestep = .minute → timestep = .day →
      update_pandas_data provider pandas_data datetime_start datetime_end
          date_time_now asset quote length timestep start_dt = .sufficient ∨
        fetchTimestep (update_pandas_data provider pandas_data datetime_start
          datetime_end date_time_now asset quote length timestep start_dt) =
          some .minute) := by
  cases hfd : fetchDecision pandas_data (normalizeAsset asset quote)
      (get_start_datetime_and_ts_unit datetime_start length timestep start_dt
        START_BUFFER).1 timestep with
  | ret =>
    constructor
    · intro t ht
      rw [update_pandas_data_eq, hfd] at ht
      simp [fetchTimestep] at ht
    · intro _ _
      left
      rw [update_pandas_data_eq, hfd]
  | cont ts =>
    have hq := fetchDecision_cont_coarseness hentry hfd
    constructor
    · intro t ht
      rw [update_pandas_data_eq, hfd] at ht
      simp only [fetchTimestep_doFetch, Option.some.injEq] at ht
      subst ht
      exact hq
    · intro hmin hday
      right
      rw [update_pandas_data_eq, hfd]
      simp only [fetchTimestep_doFetch, Option.some.injEq]
      rw [hmin] at hq
      exact coarseness_le_zero hq

theorem no_coarser_fetch_witness :
    (exCache (normalizeAsset (.single "SPY") none) = some exEntryMinute) ∧
    ((∀ t, fetchTimestep (update_pandas_data okProvider exCache 0 100 50
        (.single "SPY") none 1 .day none) = some t →
        coarseness t ≤ coarseness exEntryMinute.timestep) ∧
    (exEntryMinute.timestep = .minute → Timestep.day = .day →
      update_pandas_data okProvider exCache 0 100 50 (.single "SPY") none 1
          .day none = .sufficient ∨
        fetchTimestep (update_pandas_data okProvider exCache 0 100 50
          (.single "SPY") none 1 .day none) = some .minute)) :=
  ⟨by decide,
    no_coarser_fetch okProvider exCache 0 100 50 (.single "SPY") none 1 .day
      none exEntryMinute (by decide)⟩

theorem update_ret {provider : Provider} {pandas_data : CacheMap}
    {datetime_start datetime_end date_time_now : Int} {asset : AssetArg}
    {quote : Option String} {length : Nat} {timestep : Timestep}
    {start_dt : Option Int}
    (hdec : fetchDecision pandas_data (normalizeAsset asset quote)
      (get_start_datetime_and_ts_unit datetime_start length timestep start_dt
        START_BUFFER).1 timestep = .ret) :
    update_pandas_data provider pandas_data datetime_start datetime_end
      date_time_now asset quote length timestep start_dt = .sufficient := by
  rw [update_pandas_data_eq, hdec]

theorem update_cont {provider : Provider} {pandas_data : CacheMap}
    {datetime_start datetime_end date_time_now : Int} {asset : AssetArg}
    {quote : Option String} {length : Nat} {timestep : Timestep}
    {start_dt : Option Int} {ts : Timestep}
    (hdec : fetchDecision pandas_data (normalizeAsset asset quote)
      (get_start_datetime_and_ts_unit datetime_start length timestep start_dt
        START_BUFFER).1 timestep = .cont ts) :
    update_pandas_data provider pandas_data datetime_start datetime_end
      date_time_now asset quote length timestep start_dt =
      doFetch provider (normalizeAsset asset quote).1
        (normalizeAsset asset quote).2 ts
        (get_start_datetime_and_ts_unit datetime_start length timestep start_dt
          START_BUFFER).1 datetime_end date_time_now := by
  rw [update_pandas_data_eq, hdec]

theorem doFetch_error {provider : Provider} {a q : String} {ts : Timestep}
    {sd de now : Int} {e : String}
    (hprov : provider a q ts sd de now = .error e) :
    doFetch provider a q ts sd de now =
      .fetchErr ts ("Error getting data from ThetaData", e) := by
  unfold doFetch
  rw [hprov]

theorem doFetch_ok_none {provider : Provider} {a q : String} {ts : Timestep}
    {sd de now : Int} (hprov : provider a q ts sd de now = .ok none) :
    doFetch provider a q ts sd de now = .emptyFetch ts := by
  unfold doFetch
  rw [hprov]

theorem doFetch_ok_some {provider : Provider} {a q : String} {ts : Timestep}
    {sd de now : Int} {df : PandasDF}
    (hprov : provider a q ts sd de now = .ok (some df)) :
    doFetch provider a q ts sd de now =
      match mkData df none none with
      | none => .dataInitError ts
      | some data => .updated ts (a, q) ⟨ts, data⟩ := by
  unfold doFetch
  rw [hprov]

/-- C5: when the decided fetch succeeds with data (a non-`None` frame from
which a series can be constructed), `update_pandas_data` builds the new
Point-in-Time Series from the fetched frame alone and the cache binding for
the asset-quote key is replaced wholesale by it — the new entry does not
depend on the previously held one — while every other key is untouched. -/
theorem refresh_replaces_entry (provider : Provider) (pandas_data : CacheMap)
    (datetime_start datetime_end date_time_now : Int) (asset : AssetArg)
    (quote : Option String) (length : Nat) (timestep : Timestep)
    (start_dt : Option Int) (ts : Timestep) (df : PandasDF) (d : Data)
    (hdec : fetchDecision pandas_data (normalizeAsset asset quote)
      (get_start_datetime_and_ts_unit datetime_start length timestep start_dt
        START_BUFFER).1 timestep = .cont ts)
    (hprov : provider (normalizeAsset asset quote).1
      (normalizeAsset asset quote).2 ts
      (get_start_datetime_and_ts_unit datetime_start length timestep start_dt
        START_BUFFER).1 datetime_end date_time_now = .ok (some df))
    (hmk : mkData df none none = some d) :
    update_pandas_data provider pandas_data datetime_start datetime_end
        date_time_now asset quote length timestep start_dt =
      .updated ts (normalizeAsset asset quote) ⟨ts, d⟩ ∧
    applyUpdate pandas_data (update_pandas_data provider pandas_data
        datetime_start datetime_end date_time_now asset quote length timestep
        start_dt) (normalizeAsset asset quote) = some ⟨ts, d⟩ ∧
    (∀ k, k ≠ normalizeAsset asset quote →
      applyUpdate pandas_data (update_pandas_data provider pandas_data
        datetime_start datetime_end date_time_now asset quote length timestep
        start_dt) k = pandas_data k) := by
  have h1 : update_pandas_data provider pandas_data datetime_start datetime_end
      date_time_now asset quote length timestep start_dt =
      .updated ts (normalizeAsset asset quote) ⟨ts, d⟩ := by
    rw [update_cont hdec, doFetch_ok_some hprov, hmk]
  refine ⟨h1, ?_, ?_⟩
  · rw [h1]
    simp [applyUpdate]
  · intro k hk
    rw [h1]
    simp [applyUpdate, hk]

def exDF : PandasDF := ⟨["close"], [(0, [1]), (10, [2])]⟩

def someProvider : Provider := fun _ _ _ _ _ _ => .ok (some exDF)

def emptyCache : CacheMap := fun _ => none

def exBuilt : Data := ⟨["close"], [(0, [1]), (10, [2])], true⟩

theorem refresh_replaces_entry_witness :
    (fetchDecision emptyCache (normalizeAsset (.single "SPY") none)
        (get_start_datetime_and_ts_unit 0 1 .minute none START_BUFFER).1
        .minute = .cont .minute ∧
      someProvider (normalizeAsset (.single "SPY") none).1
        (normalizeAsset (.single "SPY") none).2 .minute
        (get_start_datetime_and_ts_unit 0 1 .minute none START_BUFFER).1 100 50 =
        .ok (some exDF) ∧
      mkData exDF none none = some exBuilt) ∧
    (update_pandas_data someProvider emptyCache 0 100 50 (.single "SPY") none 1
        .minute none = .updated .minute (normalizeAsset (.single "SPY") none)
        ⟨.minute, exBuilt⟩ ∧
      applyUpdate emptyCache (update_pandas_data someProvider emptyCache 0 100
        50 (.single "SPY") none 1 .minute none)
        (normalizeAsset (.single "SPY") none) = some ⟨.minute, exBuilt⟩ ∧
      (∀ k, k ≠ normalizeAsset (.single "SPY") none →
        applyUpdate emptyCache (update_pandas_data someProvider emptyCache 0
          100 50 (.single "SPY") none 1 .minute none) k = emptyCache k)) :=
  ⟨⟨by decide, rfl, by decide⟩,
    refresh_replaces_entry someProvider emptyCache 0 100 50 (.single "SPY")
      none 1 .minute none .minute exDF exBuilt (by decide) rfl (by decide)⟩

/-- C7: constructing a series from a valid tabular input — one whose time
index is strictly increasing, the upstream ordering obligation recorded in
spec sections 3 and 4.1 — yields a strictly monotonically increasing,
timezone-aware index.  The accessor operations (`get_iter_count`,
`get_last_price`, `get_bars`) are pure observations of the series: none
returns a modified series, so the invariant persists after every subsequent
operation. -/
theorem mkData_index_invariant (df : PandasDF) (ds de : Option Int) (d : Data)
    (hsorted : (df.rows.map Prod.fst).Pairwise (· < ·))
    (hmk : mkData df ds de = some d) :
    d.index.Pairwise (· < ·) ∧ d.tzAware = true := by
  unfold mkData at hmk
  cases hsd : set_dates (df.rows.map Prod.fst) ds de with
  | none => rw [hsd] at hmk; simp at hmk
  | some se =>
    obtain ⟨s, e⟩ := se
    rw [hsd] at hmk
    simp only [Option.some.injEq] at hmk
    subst hmk
    refine ⟨?_, rfl⟩
    have hrows : df.rows.Pairwise (fun a b => a.1 < b.1) :=
      List.pairwise_map.mp hsorted
    show ((trim_data df.rows s e).map Prod.fst).Pairwise (· < ·)
    rw [List.pairwise_map]
    exact (hrows.filter _).filter _

theorem mkData_index_invariant_witness :
    ((exDF.rows.map Prod.fst).Pairwise (· < ·) ∧
      mkData exDF none none = some exBuilt) ∧
    (exBuilt.index.Pairwise (· < ·) ∧ exBuilt.tzAware = true) :=
  ⟨⟨by decide, by decide⟩,
    mkData_index_invariant exDF none none exBuilt (by decide) (by decide)⟩

def errProvider : Provider := fun _ _ _ _ _ _ => .error "connection refused"

/-- C8 counterexample: for two different assets and the same provider
failure, `update_pandas_data` raises the very same wrapped error —
`Exception("Error getting data from ThetaData")` chained from the cause —
so the domain error does not identify the failing asset, contrary to the
claim. -/
theorem provider_error_not_asset_specific :
    update_pandas_data errProvider emptyCache 0 100 50 (.single "SPY") none 1
        .minute none =
      update_pandas_data errProvider emptyCache 0 100 50 (.single "AAPL") none
        1 .minute none ∧
    update_pandas_data errProvider emptyCache 0 100 50 (.single "SPY") none 1
        .minute none =
      .fetchErr .minute ("Error getting data from ThetaData",
        "connection refused") :=
  ⟨rfl, rfl⟩

/-- C8 (amended): when the provider raises during a bar-window request, the
error is propagated to the caller wrapped in the domain error
`Exception("Error getting data from ThetaData")` chained from the provider
error; the wrapper carries a fixed message and does not identify the failing
asset (see the counterexample). -/
theorem provider_error_wrapped (provider : Provider) (superPull : SuperPull)
    (pandas_data : CacheMap) (datetime_start datetime_end date_time_now : Int)
    (asset : AssetArg) (quote : Option String) (length : Nat)
    (timestep : Timestep) (ts : Timestep) (e : String)
    (hdec : fetchDecision pandas_data (normalizeAsset asset quote)
      (get_start_datetime_and_ts_unit datetime_start length timestep none
        START_BUFFER).1 timestep = .cont ts)
    (hprov : provider (normalizeAsset asset quote).1
      (normalizeAsset asset quote).2 ts
      (get_start_datetime_and_ts_unit datetime_start length timestep none
        START_BUFFER).1 datetime_end date_time_now = .error e) :
    update_pandas_data provider pandas_data datetime_start datetime_end
        date_time_now asset quote length timestep none =
      .fetchErr ts ("Error getting data from ThetaData", e) ∧
    pull_source_symbol_bars provider superPull pandas_data datetime_start
        datetime_end date_time_now asset quote length timestep =
      (pandas_data,
        .error (.providerError ("Error getting data from ThetaData", e))) := by
  have h1 : update_pandas_data provider pandas_data datetime_start datetime_end
      date_time_now asset quote length timestep none =
      .fetchErr ts ("Error getting data from ThetaData", e) := by
    rw [update_cont hdec, doFetch_error hprov]
  refine ⟨h1, ?_⟩
  simp only [pull_source_symbol_bars]
  rw [h1]

def superPullNone : SuperPull := fun _ _ _ _ _ => none

theorem provider_error_wrapped_witness :
    (fetchDecision emptyCache (normalizeAsset (.single "SPY") none)
        (get_start_datetime_and_ts_unit 0 1 .minute none START_BUFFER).1
        .minute = .cont .minute ∧
      errProvider (normalizeAsset (.single "SPY") none).1
        (normalizeAsset (.single "SPY") none).2 .minute
        (get_start_datetime_and_ts_unit 0 1 .minute none START_BUFFER).1 100 50 =
        .error "connection refused") ∧
    (update_pandas_data errProvider emptyCache 0 100 50 (.single "SPY") none 1
        .minute none =
      .fetchErr .minute ("Error getting data from ThetaData",
        "connection refused") ∧
    pull_source_symbol_bars errProvider superPullNone emptyCache 0 100 50
        (.single "SPY") none 1 .minute =
      (emptyCache, .error (.providerError ("Error getting data from ThetaData",
        "connection refused")))) :=
  ⟨⟨by decide, rfl⟩,
    provider_error_wrapped errProvider superPullNone emptyCache 0 100 50
      (.single "SPY") none 1 .minute .minute "connection refused" (by decide)
      rfl⟩

/-- C9: no failure of the sufficiency/refresh path escapes `get_last_price` —
the call always answers with the (spec-modelled) superclass best-effort
lookup applied to the returned data store; and when the refresh path raises,
both stores are left unchanged, the failure is logged, and the lookup falls
through on the original store. -/
theorem last_price_never_raises (provider : Provider)
    (superLast : SuperLastPrice) (pandas_data data_store : CacheMap)
    (datetime_start datetime_end date_time_now : Int) (asset : AssetArg)
    (quote : Option String) (timestep : Timestep) :
    (get_last_price provider superLast pandas_data data_store datetime_start
        datetime_end date_time_now asset quote timestep).2.2.2 =
      superLast (get_last_price provider superLast pandas_data data_store
        datetime_start datetime_end date_time_now asset quote timestep).2.1
        asset quote ∧
    (∀ ts err, update_pandas_data provider pandas_data datetime_start
        datetime_end date_time_now asset quote 1 timestep (some date_time_now) =
        .fetchErr ts err →
      get_last_price provider superLast pandas_data data_store datetime_start
          datetime_end date_time_now asset quote timestep =
        (pandas_data, data_store, ["Error get_last_price from ThetaData"],
          superLast data_store asset quote)) := by
  constructor
  · simp only [get_last_price]
    cases ho : update_pandas_data provider pandas_data datetime_start
        datetime_end date_time_now asset quote 1 timestep (some date_time_now) with
    | sufficient => rfl
    | fetchErr ts err => rfl
    | emptyFetch ts => rfl
    | updated ts k e => rfl
    | dataInitError ts => rfl
  · intro ts err ho
    simp only [get_last_price]
    rw [ho]

def superLastNone : SuperLastPrice := fun _ _ _ => none

theorem last_price_never_raises_witness :
    ((get_last_price errProvider superLastNone emptyCache emptyCache 0 100 50
        (.single "SPY") none .minute).2.2.2 =
      superLastNone (get_last_price errProvider superLastNone emptyCache
        emptyCache 0 100 50 (.single "SPY") none .minute).2.1
        (.single "SPY") none) ∧
    (get_last_price errProvider superLastNone emptyCache emptyCache 0 100 50
        (.single "SPY") none .minute =
      (emptyCache, emptyCache, ["Error get_last_price from ThetaData"],
        superLastNone emptyCache (.single "SPY") none)) :=
  have h := last_price_never_raises errProvider superLastNone emptyCache
    emptyCache 0 100 50 (.single "SPY") none .minute
  ⟨h.1, h.2 .minute ("Error getting data from ThetaData", "connection refused")
    rfl⟩

/-- C6 counterexample: with no cache entry and a provider that legitimately
returns no data (`None`), two `get_bars` calls with identical arguments and
an unchanged provider both run the refresh path and issue a fetch each —
two provider fetches in total, not at most one. -/
theorem get_bars_two_fetches_cex :
    fetchCount (update_pandas_data (fun _ _ _ _ _ _ => .ok none) emptyCache 0
        100 50 (.single "SPY") none 1 .minute none) +
      fetchCount (update_pandas_data (fun _ _ _ _ _ _ => .ok none)
        (pull_source_symbol_bars (fun _ _ _ _ _ _ => .ok none) superPullNone
          emptyCache 0 100 50 (.single "SPY") none 1 .minute).1 0 100 50
        (.single "SPY") none 1 .minute none) = 2 := by
  rfl

/-- C6 (amended): calling `get_bars` twice with identical arguments against
an unchanged deterministic provider yields identical results — the second
call returns the same cache map and the same response as the first; and at
most one provider fetch is triggered in total, provided the first call either
finds the cache sufficient or its fetch succeeds with data whose earliest
timestamp lies within `START_BUFFER` of the computed required start time
(the buffered fetch that makes the second sufficiency check pass).  Without
that proviso a fetch can repeat — see the counterexample. -/
theorem get_bars_idempotent (provider : Provider) (superPull : SuperPull)
    (m0 : CacheMap) (datetime_start datetime_end date_time_now : Int)
    (asset : AssetArg) (quote : Option String) (length : Nat)
    (timestep : Timestep) (o1 o2 : UpdateOutcome)
    (r1 r2 : CacheMap × Except PullError (Option (List Row)))
    (ho1 : update_pandas_data provider m0 datetime_start datetime_end
      date_time_now asset quote length timestep none = o1)
    (hr1 : pull_source_symbol_bars provider superPull m0 datetime_start
      datetime_end date_time_now asset quote length timestep = r1)
    (ho2 : update_pandas_data provider r1.1 datetime_start datetime_end
      date_time_now asset quote length timestep none = o2)
    (hr2 : pull_source_symbol_bars provider superPull r1.1 datetime_start
      datetime_end date_time_now asset quote length timestep = r2) :
    r2 = r1 ∧
    ((o1 = .sufficient ∨
        ∃ ts e, o1 = .updated ts (normalizeAsset asset quote) e ∧
          e.startTimestamp - (get_start_datetime_and_ts_unit datetime_start
            length timestep none START_BUFFER).1 < START_BUFFER) →
      fetchCount o1 + fetchCount o2 ≤ 1) := by
  cases hfd : fetchDecision m0 (normalizeAsset asset quote)
      (get_start_datetime_and_ts_unit datetime_start length timestep none
        START_BUFFER).1 timestep with
  | ret =>
    have h1 : o1 = .sufficient := by rw [← ho1, update_ret hfd]
    have hr1v : r1 = (m0, .ok (superPull m0 asset quote length timestep)) := by
      rw [← hr1]
      simp only [pull_source_symbol_bars]
      rw [update_ret hfd]
      rfl
    have hm : r1.1 = m0 := by rw [hr1v]
    have h2 : o2 = .sufficient := by
      rw [← ho2, hm, update_ret hfd]
    have hr2v : r2 = (m0, .ok (superPull m0 asset quote length timestep)) := by
      rw [← hr2, hm]
      simp only [pull_source_symbol_bars]
      rw [update_ret hfd]
      rfl
    refine ⟨by rw [hr1v, hr2v], ?_⟩
    intro _
    rw [h1, h2]
    decide
  | cont ts =>
    have h1d : update_pandas_data provider m0 datetime_start datetime_end
        date_time_now asset quote length timestep none =
        doFetch provider (normalizeAsset asset quote).1
          (normalizeAsset asset quote).2 ts
          (get_start_datetime_and_ts_unit datetime_start length timestep none
            START_BUFFER).1 datetime_end date_time_now := update_cont hfd
    cases hp : provider (normalizeAsset asset quote).1
        (normalizeAsset asset quote).2 ts
        (get_start_datetime_and_ts_unit datetime_start length timestep none
          START_BUFFER).1 datetime_end date_time_now with
    | error e =>
      have h1 : o1 = .fetchErr ts ("Error getting data from ThetaData", e) := by
        rw [← ho1, h1d, doFetch_error hp]
      have hr1v : r1 = (m0, .error (.providerError
          ("Error getting data from ThetaData", e))) := by
        rw [← hr1]
        simp only [pull_source_symbol_bars]
        rw [h1d, doFetch_error hp]
      have hm : r1.1 = m0 := by rw [hr1v]
      have h2 : o2 = .fetchErr ts ("Error getting data from ThetaData", e) := by
        rw [← ho2, hm, h1d, doFetch_error hp]
      have hr2v : r2 = (m0, .error (.providerError
          ("Error getting data from ThetaData", e))) := by
        rw [← hr2, hm]
        simp only [pull_source_symbol_bars]
        rw [h1d, doFetch_error hp]
      refine ⟨by rw [hr1v, hr2v], ?_⟩
      intro hH
      rcases hH with hs | ⟨ts', e', he', _⟩
      · rw [h1] at hs; exact absurd hs (by simp)
      · rw [h1] at he'; exact absurd he' (by simp)
    | ok odf =>
      cases odf with
      | none =>
        have h1 : o1 = .emptyFetch ts := by
          rw [← ho1, h1d, doFetch_ok_none hp]
        have hr1v : r1 = (m0, .ok (superPull m0 asset quote length timestep)) := by
          rw [← hr1]
          simp only [pull_source_symbol_bars]
          rw [h1d, doFetch_ok_none hp]
          rfl
        have hm : r1.1 = m0 := by rw [hr1v]
        have h2 : o2 = .emptyFetch ts := by
          rw [← ho2, hm, h1d, doFetch_ok_none hp]
        have hr2v : r2 = (m0, .ok (superPull m0 asset quote length timestep)) := by
          rw [← hr2, hm]
          simp only [pull_source_symbol_bars]
          rw [h1d, doFetch_ok_none hp]
          rfl
        refine ⟨by rw [hr1v, hr2v], ?_⟩
        intro hH
        rcases hH with hs | ⟨ts', e', he', _⟩
        · rw [h1] at hs; exact absurd hs (by simp)
        · rw [h1] at he'; exact absurd he' (by simp)
      | some df =>
        have hdf : doFetch provider (normalizeAsset asset quote).1
            (normalizeAsset asset quote).2 ts
            (get_start_datetime_and_ts_unit datetime_start length timestep none
              START_BUFFER).1 datetime_end date_time_now =
            match mkData df none none with
            | none => .dataInitError ts
            | some data => .updated ts (normalizeAsset asset quote) ⟨ts, data⟩ :=
          doFetch_ok_some hp
        cases hmk : mkData df none none with
        | none =>
          rw [hmk] at hdf
          have h1 : o1 = .dataInitError ts := by rw [← ho1, h1d, hdf]
          have hr1v : r1 = (m0, .error .dataInitFailure) := by
            rw [← hr1]
            simp only [pull_source_symbol_bars]
            rw [h1d, hdf]
          have hm : r1.1 = m0 := by rw [hr1v]
          have h2 : o2 = .dataInitError ts := by rw [← ho2, hm, h1d, hdf]
          have hr2v : r2 = (m0, .error .dataInitFailure) := by
            rw [← hr2, hm]
            simp only [pull_source_symbol_bars]
            rw [h1d, hdf]
          refine ⟨by rw [hr1v, hr2v], ?_⟩
          intro hH
          rcases hH with hs | ⟨ts', e', he', _⟩
          · rw [h1] at hs; exact absurd hs (by simp)
          · rw [h1] at he'; exact absurd he' (by simp)
        | some d =>
          rw [hmk] at hdf
          have h1 : o1 = .updated ts (normalizeAsset asset quote) ⟨ts, d⟩ := by
            rw [← ho1, h1d, hdf]
          have hr1v : r1 = (applyUpdate m0
              (.updated ts (normalizeAsset asset quote) ⟨ts, d⟩),
              .ok (superPull (applyUpdate m0
                (.updated ts (normalizeAsset asset quote) ⟨ts, d⟩))
                asset quote length timestep)) := by
            rw [← hr1]
            simp only [pull_source_symbol_bars]
            rw [h1d, hdf]
          have hm : r1.1 = applyUpdate m0
              (.updated ts (normalizeAsset asset quote) ⟨ts, d⟩) := by
            rw [hr1v]
          have hm1key : r1.1 (normalizeAsset asset quote) = some ⟨ts, d⟩ := by
            rw [hm]
            simp [applyUpdate]
          have hpair : tsPair timestep (⟨ts, d⟩ : CacheEntry).timestep :=
            fetchDecision_cont_pairs hfd
          have hfd2 : fetchDecision r1.1 (normalizeAsset asset quote)
              (get_start_datetime_and_ts_unit datetime_start length timestep
                none START_BUFFER).1 timestep =
              if (⟨ts, d⟩ : CacheEntry).startTimestamp -
                  (get_start_datetime_and_ts_unit datetime_start length
                    timestep none START_BUFFER).1 < START_BUFFER then .ret
              else .cont ts :=
            fetchDecision_second hm1key hpair
          by_cases hbuf : (⟨ts, d⟩ : CacheEntry).startTimestamp -
              (get_start_datetime_and_ts_unit datetime_start length timestep
                none START_BUFFER).1 < START_BUFFER
          · rw [if_pos hbuf] at hfd2
            have h2 : o2 = .sufficient := by rw [← ho2, update_ret hfd2]
            have hr2v : r2 = (r1.1, .ok (superPull r1.1 asset quote length
                timestep)) := by
              rw [← hr2]
              simp only [pull_source_symbol_bars]
              rw [update_ret hfd2]
              rfl
            refine ⟨?_, ?_⟩
            · rw [hr2v, hr1v]
            · intro _
              rw [h1, h2]
              simp [fetchCount, fetchTimestep]
          · rw [if_neg hbuf] at hfd2
            have h2 : o2 = .updated ts (normalizeAsset asset quote) ⟨ts, d⟩ := by
              rw [← ho2, update_cont hfd2, hdf]
            have happ : applyUpdate r1.1
                (.updated ts (normalizeAsset asset quote) ⟨ts, d⟩) = r1.1 := by
              funext k2
              simp only [applyUpdate]
              by_cases hk : k2 = normalizeAsset asset quote
              · rw [if_pos hk, hk, hm1key]
              · rw [if_neg hk]
            have hr2v : r2 = (r1.1, .ok (superPull r1.1 asset quote length
                timestep)) := by
              rw [← hr2]
              simp only [pull_source_symbol_bars]
              rw [update_cont hfd2, hdf, happ]
            refine ⟨?_, ?_⟩
            · rw [hr2v, hr1v]
            · intro hH
              exfalso
              rcases hH with hs | ⟨ts', e', he', hb'⟩
              · rw [h1] at hs
                exact absurd hs (by simp)
              · rw [h1] at he'
                have hts : ts = ts' ∧ (⟨ts, d⟩ : CacheEntry) = e' := by
                  have := he'.symm
                  injection this with a b c
                  exact ⟨a.symm, c.symm⟩
                rcases hts with ⟨hts1, hts2⟩
                rw [← hts2] at hb'
                exact hbuf hb'

def exEntryEarly : CacheEntry := ⟨.minute, ⟨["close"], [(-1000, [1])], true⟩⟩

def exCacheEarly : CacheMap :=
  fun k => if k = ("SPY", "USD") then some exEntryEarly else none

theorem get_bars_idempotent_witness :
    pull_source_symbol_bars okProvider superPullNone
        (pull_source_symbol_bars okProvider superPullNone exCacheEarly 0 100 50
          (.single "SPY") none 1 .minute).1 0 100 50 (.single "SPY") none 1
        .minute =
      pull_source_symbol_bars okProvider superPullNone exCacheEarly 0 100 50
        (.single "SPY") none 1 .minute ∧
    fetchCount (update_pandas_data okProvider exCacheEarly 0 100 50
        (.single "SPY") none 1 .minute none) +
      fetchCount (update_pandas_data okProvider
        (pull_source_symbol_bars okProvider superPullNone exCacheEarly 0 100 50
          (.single "SPY") none 1 .minute).1 0 100 50 (.single "SPY") none 1
        .minute none) ≤ 1 :=
  have h := get_bars_idempotent okProvider superPullNone exCacheEarly 0 100 50
    (.single "SPY") none 1 .minute _ _ _ _ rfl rfl rfl rfl
  ⟨h.1, h.2 (Or.inl (by decide))⟩
